import Mathlib

set_option maxRecDepth 100000

set_option maxHeartbeats 1000000

/-!
Verification development for the hebrides crate's documentation search index
(`target/doc/search-index.js`).  The file embeds, verbatim, the parsed value of
`searchIndex`: for the single crate key `hebrides`, the parallel lists of item
kinds (`t`), item names (`n`), module paths (`q`), docstrings (`d`), parent-type
indices (`i`), signature entries (`f`), and the type-name table (`p`).  All
theorems below are statements about this concrete data.
-/

/-- A type reference inside a signature entry of the `f` list: either a plain
1-based index into the type table `p` (a bare number in the JSON), or an index
applied to a list of generic-argument indices, written `[5,[3,4]]` in the JSON
(here: `Result` applied to `Angle` and `DomainError`).  Every generic argument
occurring in this index is itself a bare index. -/
inductive RType where
  | base (t : Nat) : RType
  | app (t : Nat) (args : List Nat) : RType
  deriving DecidableEq

/-- One side (inputs or output) of a signature entry: either a single type
reference (a bare number in the JSON) or a list of type references. -/
inductive ArgSide where
  | single (t : RType) : ArgSide
  | list (ts : List RType) : ArgSide
  deriving DecidableEq

/-- An element of the `f` list: the JSON literal `0` for items with no
signature, a one-element array `[inputs]` for signatures with no recorded
output, or a two-element array `[inputs, output]`. -/
inductive FEntry where
  | noSig : FEntry
  | args (inputs : ArgSide) : FEntry
  | fn (inputs : ArgSide) (output : ArgSide) : FEntry
  deriving DecidableEq
def hebrides_t : List Nat := [
  3, 3, 3, 3, 18, 18, 18, 3, 18, 18, 11, 11, 11, 11, 11, 11, 11, 11, 11, 11,
  11, 11, 11, 11, 11, 11, 11, 11, 11, 11, 11, 11, 11, 11, 11, 11, 11, 11, 11, 11,
  11, 11, 11, 11, 11, 11, 11, 11, 11, 11, 11, 11, 11, 11, 11, 11, 11, 11, 11, 11,
  11, 11, 11, 11, 11, 11, 11, 11, 11, 11, 11, 11, 11, 11, 11, 11, 11, 11, 11, 11,
  11, 11, 11, 11, 11, 11, 11, 11, 11, 11, 11, 11, 11, 11, 11, 11, 11, 11, 11, 11,
  11, 11, 11, 11, 11, 11, 11, 11, 11, 11, 11, 11, 11, 11, 11, 11, 11, 11, 11, 11,
  11, 11, 11, 11, 11, 11, 11, 11, 11, 11, 11, 11, 11, 11, 11, 11, 11, 11, 11, 11,
  11, 11, 11, 11, 11, 11, 11, 11, 11, 11, 11, 11]

def hebrides_n : List String := [
  "Angle", "Complex", "ConversionError", "DomainError", "I", "ONE",
  "ONE", "Real", "ZERO", "ZERO", "abs", "abs",
  "add", "add", "arccos", "arccos", "arccosh", "arccosh",
  "arcsin", "arcsin", "arcsinh", "arcsinh", "arctan", "arctan",
  "arctanh", "arctanh", "azimuthal", "borrow", "borrow", "borrow",
  "borrow", "borrow", "borrow_mut", "borrow_mut", "borrow_mut", "borrow_mut",
  "borrow_mut", "ceil", "clone", "clone", "clone", "clone",
  "clone_into", "clone_into", "clone_into", "clone_into", "cmp", "cos",
  "cos", "cosh", "cosh", "div", "div", "eq",
  "eq", "exp", "exp", "floor", "fmt", "fmt",
  "fmt", "fmt", "fmt", "fmt", "fmt", "fmt",
  "from", "from", "from", "from", "from", "from",
  "from", "from", "from", "from", "from", "from",
  "from", "from", "from", "from_degrees", "from_radians", "into",
  "into", "into", "into", "into", "into_degrees", "into_radians",
  "is_imaginary", "is_real", "ln", "ln", "log", "logf",
  "logi", "mul", "mul", "neg", "neg", "negative",
  "new", "new", "norm", "partial_cmp", "positive", "pow",
  "powf", "powi", "sin", "sin", "sinh", "sinh",
  "sqrt", "sqrt", "squared", "squared", "sub", "sub",
  "tan", "tan", "tanh", "tanh", "to_complex", "to_degrees",
  "to_owned", "to_owned", "to_owned", "to_owned", "to_radians", "to_string",
  "to_string", "to_string", "to_string", "try_from", "try_from", "try_from",
  "try_from", "try_from", "try_from", "try_into", "try_into", "try_into",
  "try_into", "try_into", "type_id", "type_id", "type_id", "type_id",
  "type_id", "value"]

def hebrides_q : List String := [
  "hebrides", "", "", "", "", "", "", "", "", "", "", "",
  "", "", "", "", "", "", "", "", "", "", "", "",
  "", "", "", "", "", "", "", "", "", "", "", "",
  "", "", "", "", "", "", "", "", "", "", "", "",
  "", "", "", "", "", "", "", "", "", "", "", "",
  "", "", "", "", "", "", "", "", "", "", "", "",
  "", "", "", "", "", "", "", "", "", "", "", "",
  "", "", "", "", "", "", "", "", "", "", "", "",
  "", "", "", "", "", "", "", "", "", "", "", "",
  "", "", "", "", "", "", "", "", "", "", "", "",
  "", "", "", "", "", "", "", "", "", "", "", "",
  "", "", "", "", "", "", "", "", "", "", "", "",
  "", "", "", "", "", "", "", ""]

def hebrides_d : List String := [
  "Representation of angular values.", "Representation of complex numbers",
  "Error type for errors involving conversion between values.", "Error type for errors involving domain restrictions.",
  "shortcut for encoding the imaginary unit as …", "shortcut for describing Real::new(0.0)",
  "shortcut for encoding 1.0 as Complex::new(Real::ONE, …", "Representation of real numbers.",
  "shortcut for describing Real::new(1.0)", "shortcut for encoding 0.0 as Complex::new(Real::ZERO, …",
  "Absolute value of <code>self</code>.", "Absolute value (aka. complex norm).",
  "", "",
  "Arccosine.", "Complex arccos.",
  "Hyperbolic arccosine.", "Complex inverse hyperbolic cosine.",
  "Arcsine.", "Complex arcsin.",
  "Hyperbolic arcsine.", "Complex inverse hyperbolic sine.",
  "Arctangent.", "Complex arctan.",
  "Hyperbolic arctangent.", "Complex inverse hyperbolic tangent.",
  "Azimuthal angle.", "",
  "", "",
  "", "",
  "", "",
  "", "",
  "", "Returns the ceiling of <code>self</code>.",
  "", "",
  "", "",
  "", "",
  "", "",
  "", "Cosine.",
  "Complex cosine.", "Hyperbolic cosine.",
  "Complex hyperbolic cosine.", "",
  "", "",
  "", "e to the power of <code>self</code>.",
  "Complex exponentiation.", "Returns the floor of <code>self</code>.",
  "", "",
  "", "",
  "", "",
  "", "",
  "Returns the argument unchanged.", "Returns the argument unchanged.",
  "Returns the argument unchanged.", "",
  "", "",
  "", "",
  "", "",
  "", "",
  "", "Returns the argument unchanged.",
  "Returns the argument unchanged.", "Constructs an Angle from a given value in degrees",
  "Constructs an Angle from a given value in radians", "Calls <code>U::from(self)</code>.",
  "Calls <code>U::from(self)</code>.", "Calls <code>U::from(self)</code>.",
  "Calls <code>U::from(self)</code>.", "Calls <code>U::from(self)</code>.",
  "Converts a <code>value</code> in radians into a value in degrees", "Converts a <code>value</code> in degrees into a value in radians",
  "Returns whether or not <code>self</code> is imaginary.", "Returns whether or not <code>self</code> is real.",
  "Natural logarithm.", "Complex natural logarithm.",
  "Logarithm with base ‘base’.", "Logarithm with base ‘base’.",
  "Logarithm with base ‘base’.", "",
  "", "",
  "", "Whether or not <code>self</code> is negative.",
  "Constructs a Real from an f64.", "Constructs a Complex from two f64 values",
  "Complex norm.", "",
  "Whether or not <code>self</code> is positive.", "<code>self</code> to the power of <code>power</code>.",
  "<code>self</code> to the power of <code>power</code>.", "<code>self</code> to the power of <code>power</code>.",
  "Sine.", "Complex sine.",
  "Hyperbolic sine.", "Complex hyperbolic sine.",
  "Returns the square root of <code>self</code>.", "Returns the square root of <code>self</code>.",
  "Returns the square of <code>self</code>.", "Returns <code>self</code> squared.",
  "", "",
  "Tangent.", "Complex tangent.",
  "Hyperbolic tangent.", "Complex hyperbolic tangent.",
  "Constructs a <code>Complex</code> from <code>self</code>.", "Consumes <code>self</code>, returning a value in degrees.",
  "", "",
  "", "",
  "Consumes <code>self</code>, returning a value in radians.", "",
  "", "",
  "", "",
  "", "",
  "", "",
  "", "",
  "", "",
  "", "",
  "", "",
  "", "",
  "", "Returns a copy of <code>self</code> as an f64."]

def hebrides_i : List Nat := [
  0, 0, 0, 0, 2, 1, 2, 0, 1, 2, 1, 2, 1, 2, 1, 2, 1, 2, 1, 2,
  1, 2, 1, 2, 1, 2, 2, 3, 4, 6, 1, 2, 3, 4, 6, 1, 2, 1, 4, 6,
  1, 2, 4, 6, 1, 2, 1, 1, 2, 1, 2, 1, 2, 1, 2, 1, 2, 1, 4, 4,
  6, 6, 1, 1, 2, 2, 3, 4, 6, 1, 1, 1, 1, 1, 1, 1, 1, 1, 1, 1,
  2, 3, 3, 3, 4, 6, 1, 2, 3, 3, 2, 2, 1, 2, 1, 1, 1, 1, 2, 1,
  2, 1, 1, 2, 2, 1, 1, 1, 1, 1, 1, 2, 1, 2, 1, 2, 1, 2, 1, 2,
  1, 2, 1, 2, 1, 3, 4, 6, 1, 2, 3, 4, 6, 1, 2, 3, 4, 6, 1, 1,
  2, 3, 4, 6, 1, 2, 3, 4, 6, 1, 2, 1]

def hebrides_f : List FEntry := [
  FEntry.noSig, FEntry.noSig,
  FEntry.noSig, FEntry.noSig,
  FEntry.noSig, FEntry.noSig,
  FEntry.noSig, FEntry.noSig,
  FEntry.noSig, FEntry.noSig,
  FEntry.fn (ArgSide.single (RType.base 1)) (ArgSide.single (RType.base 1)), FEntry.fn (ArgSide.single (RType.base 2)) (ArgSide.single (RType.base 2)),
  FEntry.fn (ArgSide.list [RType.base 1, RType.base 1]) (ArgSide.single (RType.base 1)), FEntry.fn (ArgSide.list [RType.base 2, RType.base 2]) (ArgSide.single (RType.base 2)),
  FEntry.fn (ArgSide.single (RType.base 1)) (ArgSide.list [RType.app 5 [3, 4]]), FEntry.fn (ArgSide.single (RType.base 2)) (ArgSide.single (RType.base 2)),
  FEntry.fn (ArgSide.single (RType.base 1)) (ArgSide.list [RType.app 5 [3, 4]]), FEntry.fn (ArgSide.single (RType.base 2)) (ArgSide.single (RType.base 2)),
  FEntry.fn (ArgSide.single (RType.base 1)) (ArgSide.list [RType.app 5 [3, 4]]), FEntry.fn (ArgSide.single (RType.base 2)) (ArgSide.single (RType.base 2)),
  FEntry.fn (ArgSide.single (RType.base 1)) (ArgSide.single (RType.base 3)), FEntry.fn (ArgSide.single (RType.base 2)) (ArgSide.single (RType.base 2)),
  FEntry.fn (ArgSide.single (RType.base 1)) (ArgSide.single (RType.base 3)), FEntry.fn (ArgSide.single (RType.base 2)) (ArgSide.single (RType.base 2)),
  FEntry.fn (ArgSide.single (RType.base 1)) (ArgSide.list [RType.app 5 [3, 4]]), FEntry.fn (ArgSide.single (RType.base 2)) (ArgSide.single (RType.base 2)),
  FEntry.fn (ArgSide.single (RType.base 2)) (ArgSide.single (RType.base 3)), FEntry.args (ArgSide.list []),
  FEntry.args (ArgSide.list []), FEntry.args (ArgSide.list []),
  FEntry.args (ArgSide.list []), FEntry.args (ArgSide.list []),
  FEntry.args (ArgSide.list []), FEntry.args (ArgSide.list []),
  FEntry.args (ArgSide.list []), FEntry.args (ArgSide.list []),
  FEntry.args (ArgSide.list []), FEntry.fn (ArgSide.single (RType.base 1)) (ArgSide.single (RType.base 1)),
  FEntry.fn (ArgSide.single (RType.base 4)) (ArgSide.single (RType.base 4)), FEntry.fn (ArgSide.single (RType.base 6)) (ArgSide.single (RType.base 6)),
  FEntry.fn (ArgSide.single (RType.base 1)) (ArgSide.single (RType.base 1)), FEntry.fn (ArgSide.single (RType.base 2)) (ArgSide.single (RType.base 2)),
  FEntry.args (ArgSide.list []), FEntry.args (ArgSide.list []),
  FEntry.args (ArgSide.list []), FEntry.args (ArgSide.list []),
  FEntry.fn (ArgSide.list [RType.base 1, RType.base 1]) (ArgSide.single (RType.base 7)), FEntry.fn (ArgSide.single (RType.base 1)) (ArgSide.single (RType.base 1)),
  FEntry.fn (ArgSide.single (RType.base 2)) (ArgSide.single (RType.base 2)), FEntry.fn (ArgSide.single (RType.base 1)) (ArgSide.single (RType.base 1)),
  FEntry.fn (ArgSide.single (RType.base 2)) (ArgSide.single (RType.base 2)), FEntry.fn (ArgSide.list [RType.base 1, RType.base 1]) (ArgSide.single (RType.base 1)),
  FEntry.fn (ArgSide.list [RType.base 2, RType.base 2]) (ArgSide.single (RType.base 2)), FEntry.fn (ArgSide.list [RType.base 1, RType.base 1]) (ArgSide.single (RType.base 8)),
  FEntry.fn (ArgSide.list [RType.base 2, RType.base 2]) (ArgSide.single (RType.base 8)), FEntry.fn (ArgSide.single (RType.base 1)) (ArgSide.single (RType.base 1)),
  FEntry.fn (ArgSide.single (RType.base 2)) (ArgSide.single (RType.base 2)), FEntry.fn (ArgSide.single (RType.base 1)) (ArgSide.single (RType.base 1)),
  FEntry.fn (ArgSide.list [RType.base 4, RType.base 9]) (ArgSide.single (RType.base 10)), FEntry.fn (ArgSide.list [RType.base 4, RType.base 9]) (ArgSide.single (RType.base 10)),
  FEntry.fn (ArgSide.list [RType.base 6, RType.base 9]) (ArgSide.single (RType.base 10)), FEntry.fn (ArgSide.list [RType.base 6, RType.base 9]) (ArgSide.single (RType.base 10)),
  FEntry.fn (ArgSide.list [RType.base 1, RType.base 9]) (ArgSide.single (RType.base 10)), FEntry.fn (ArgSide.list [RType.base 1, RType.base 9]) (ArgSide.single (RType.base 10)),
  FEntry.fn (ArgSide.list [RType.base 2, RType.base 9]) (ArgSide.single (RType.base 10)), FEntry.fn (ArgSide.list [RType.base 2, RType.base 9]) (ArgSide.single (RType.base 10)),
  FEntry.args (ArgSide.list []), FEntry.args (ArgSide.list []),
  FEntry.args (ArgSide.list []), FEntry.fn (ArgSide.single (RType.base 11)) (ArgSide.single (RType.base 1)),
  FEntry.fn (ArgSide.single (RType.base 12)) (ArgSide.single (RType.base 1)), FEntry.fn (ArgSide.single (RType.base 13)) (ArgSide.single (RType.base 1)),
  FEntry.fn (ArgSide.single (RType.base 14)) (ArgSide.single (RType.base 1)), FEntry.fn (ArgSide.single (RType.base 15)) (ArgSide.single (RType.base 1)),
  FEntry.fn (ArgSide.single (RType.base 16)) (ArgSide.single (RType.base 1)), FEntry.fn (ArgSide.single (RType.base 17)) (ArgSide.single (RType.base 1)),
  FEntry.fn (ArgSide.single (RType.base 18)) (ArgSide.single (RType.base 1)), FEntry.fn (ArgSide.single (RType.base 19)) (ArgSide.single (RType.base 1)),
  FEntry.fn (ArgSide.single (RType.base 20)) (ArgSide.single (RType.base 1)), FEntry.args (ArgSide.list []),
  FEntry.args (ArgSide.list []), FEntry.fn (ArgSide.single (RType.base 18)) (ArgSide.single (RType.base 3)),
  FEntry.fn (ArgSide.single (RType.base 18)) (ArgSide.single (RType.base 3)), FEntry.args (ArgSide.list []),
  FEntry.args (ArgSide.list []), FEntry.args (ArgSide.list []),
  FEntry.args (ArgSide.list []), FEntry.args (ArgSide.list []),
  FEntry.fn (ArgSide.single (RType.base 18)) (ArgSide.single (RType.base 18)), FEntry.fn (ArgSide.single (RType.base 18)) (ArgSide.single (RType.base 18)),
  FEntry.fn (ArgSide.single (RType.base 2)) (ArgSide.single (RType.base 8)), FEntry.fn (ArgSide.single (RType.base 2)) (ArgSide.single (RType.base 8)),
  FEntry.fn (ArgSide.single (RType.base 1)) (ArgSide.list [RType.app 5 [1, 4]]), FEntry.fn (ArgSide.single (RType.base 2)) (ArgSide.single (RType.base 2)),
  FEntry.fn (ArgSide.list [RType.base 1, RType.base 1]) (ArgSide.list [RType.app 5 [1, 4]]), FEntry.fn (ArgSide.list [RType.base 1, RType.base 18]) (ArgSide.list [RType.app 5 [1, 4]]),
  FEntry.fn (ArgSide.list [RType.base 1, RType.base 12]) (ArgSide.list [RType.app 5 [1, 4]]), FEntry.fn (ArgSide.list [RType.base 1, RType.base 1]) (ArgSide.single (RType.base 1)),
  FEntry.fn (ArgSide.list [RType.base 2, RType.base 2]) (ArgSide.single (RType.base 2)), FEntry.fn (ArgSide.single (RType.base 1)) (ArgSide.single (RType.base 1)),
  FEntry.fn (ArgSide.single (RType.base 2)) (ArgSide.single (RType.base 2)), FEntry.fn (ArgSide.single (RType.base 1)) (ArgSide.single (RType.base 8)),
  FEntry.fn (ArgSide.single (RType.base 18)) (ArgSide.single (RType.base 1)), FEntry.fn (ArgSide.list [RType.base 18, RType.base 18]) (ArgSide.single (RType.base 2)),
  FEntry.fn (ArgSide.single (RType.base 2)) (ArgSide.single (RType.base 1)), FEntry.fn (ArgSide.list [RType.base 1, RType.base 1]) (ArgSide.list [RType.app 21 [7]]),
  FEntry.fn (ArgSide.single (RType.base 1)) (ArgSide.single (RType.base 8)), FEntry.fn (ArgSide.list [RType.base 1, RType.base 1]) (ArgSide.single (RType.base 1)),
  FEntry.fn (ArgSide.list [RType.base 1, RType.base 18]) (ArgSide.list [RType.app 5 [1, 4]]), FEntry.fn (ArgSide.list [RType.base 1, RType.base 12]) (ArgSide.single (RType.base 1)),
  FEntry.fn (ArgSide.single (RType.base 1)) (ArgSide.single (RType.base 1)), FEntry.fn (ArgSide.single (RType.base 2)) (ArgSide.single (RType.base 2)),
  FEntry.fn (ArgSide.single (RType.base 1)) (ArgSide.single (RType.base 1)), FEntry.fn (ArgSide.single (RType.base 2)) (ArgSide.single (RType.base 2)),
  FEntry.fn (ArgSide.single (RType.base 1)) (ArgSide.list [RType.app 5 [1, 4]]), FEntry.fn (ArgSide.single (RType.base 2)) (ArgSide.single (RType.base 2)),
  FEntry.fn (ArgSide.single (RType.base 1)) (ArgSide.single (RType.base 1)), FEntry.fn (ArgSide.single (RType.base 2)) (ArgSide.single (RType.base 2)),
  FEntry.fn (ArgSide.list [RType.base 1, RType.base 1]) (ArgSide.single (RType.base 1)), FEntry.fn (ArgSide.list [RType.base 2, RType.base 2]) (ArgSide.single (RType.base 2)),
  FEntry.fn (ArgSide.single (RType.base 1)) (ArgSide.single (RType.base 1)), FEntry.fn (ArgSide.single (RType.base 2)) (ArgSide.single (RType.base 2)),
  FEntry.fn (ArgSide.single (RType.base 1)) (ArgSide.single (RType.base 1)), FEntry.fn (ArgSide.single (RType.base 2)) (ArgSide.single (RType.base 2)),
  FEntry.fn (ArgSide.single (RType.base 1)) (ArgSide.single (RType.base 2)), FEntry.fn (ArgSide.single (RType.base 3)) (ArgSide.single (RType.base 18)),
  FEntry.args (ArgSide.list []), FEntry.args (ArgSide.list []),
  FEntry.args (ArgSide.list []), FEntry.args (ArgSide.list []),
  FEntry.fn (ArgSide.single (RType.base 3)) (ArgSide.single (RType.base 18)), FEntry.fn (ArgSide.list []) (ArgSide.single (RType.base 22)),
  FEntry.fn (ArgSide.list []) (ArgSide.single (RType.base 22)), FEntry.fn (ArgSide.list []) (ArgSide.single (RType.base 22)),
  FEntry.fn (ArgSide.list []) (ArgSide.single (RType.base 22)), FEntry.fn (ArgSide.list []) (ArgSide.single (RType.base 5)),
  FEntry.fn (ArgSide.list []) (ArgSide.single (RType.base 5)), FEntry.fn (ArgSide.list []) (ArgSide.single (RType.base 5)),
  FEntry.fn (ArgSide.single (RType.base 2)) (ArgSide.list [RType.app 5 [1, 6]]), FEntry.fn (ArgSide.list []) (ArgSide.single (RType.base 5)),
  FEntry.fn (ArgSide.list []) (ArgSide.single (RType.base 5)), FEntry.fn (ArgSide.list []) (ArgSide.single (RType.base 5)),
  FEntry.fn (ArgSide.list []) (ArgSide.single (RType.base 5)), FEntry.fn (ArgSide.list []) (ArgSide.single (RType.base 5)),
  FEntry.fn (ArgSide.list []) (ArgSide.single (RType.base 5)), FEntry.fn (ArgSide.list []) (ArgSide.single (RType.base 5)),
  FEntry.fn (ArgSide.list []) (ArgSide.single (RType.base 23)), FEntry.fn (ArgSide.list []) (ArgSide.single (RType.base 23)),
  FEntry.fn (ArgSide.list []) (ArgSide.single (RType.base 23)), FEntry.fn (ArgSide.list []) (ArgSide.single (RType.base 23)),
  FEntry.fn (ArgSide.list []) (ArgSide.single (RType.base 23)), FEntry.fn (ArgSide.single (RType.base 1)) (ArgSide.single (RType.base 18))]

def hebrides_p : List (Nat × String) := [
  (3, "Real"), (3, "Complex"), (3, "Angle"), (3, "DomainError"),
  (4, "Result"), (3, "ConversionError"), (4, "Ordering"), (15, "bool"),
  (3, "Formatter"), (6, "Result"), (15, "i32"), (15, "i64"),
  (15, "u16"), (15, "f32"), (15, "u64"), (15, "u8"),
  (15, "i8"), (15, "f64"), (15, "u32"), (15, "i16"),
  (4, "Option"), (3, "String"), (3, "TypeId")]
/-- The value stored under a crate key of the parsed `searchIndex` object:
the crate docstring and the seven parallel/auxiliary lists. -/
structure CrateEntry where
  doc : String
  t : List Nat
  n : List String
  q : List String
  d : List String
  i : List Nat
  f : List FEntry
  p : List (Nat × String)
  deriving DecidableEq

/-- The entry stored under the key `hebrides`. -/
def hebridesCrate : CrateEntry where
  doc := "Implementations for real and complex numbers."
  t := hebrides_t
  n := hebrides_n
  q := hebrides_q
  d := hebrides_d
  i := hebrides_i
  f := hebrides_f
  p := hebrides_p

/-- The parsed `searchIndex` value: an association list from crate names to
crate entries.  The JSON object has exactly one key, `hebrides`. -/
def searchIndex : List (String × CrateEntry) := [("hebrides", hebridesCrate)]

/-- The type references recorded on one side of a signature entry. -/
def ArgSide.types : ArgSide → List RType
  | .single t => [t]
  | .list ts => ts

/-- The input types recorded for a signature entry (empty for the literal 0). -/
def FEntry.inputTypes : FEntry → List RType
  | .noSig => []
  | .args inp => inp.types
  | .fn inp _ => inp.types

/-- The output types recorded for a signature entry (empty when no output is
recorded). -/
def FEntry.outputTypes : FEntry → List RType
  | .fn _ out => out.types
  | _ => []

/-- All type references recorded in a signature entry, inputs then outputs. -/
def FEntry.allTypes (e : FEntry) : List RType := e.inputTypes ++ e.outputTypes

/-- If a type reference is the `Result` type (table index 5) applied to an ok
index and an error index, return the error index. -/
def RType.resultErr : RType → Option Nat
  | .app 5 [_, e] => some e
  | _ => none

/-- The error indices of all `Result` types occurring in a signature entry. -/
def FEntry.resultErrs (e : FEntry) : List Nat := e.allTypes.filterMap RType.resultErr

/-- Whether a signature entry records an output that is `Result` with the given
error type index, i.e. whether the operation is recorded as fallible with that
error. -/
def FEntry.returnsResultErr (e : FEntry) (err : Nat) : Bool :=
  e.outputTypes.any fun ty => ty.resultErr == some err

/-- Whether a type reference mentions the given table index, either as its head
or among its generic arguments. -/
def RType.mentions (k : Nat) : RType → Bool
  | .base t => t == k
  | .app t args => t == k || args.contains k

/-- Every table index occurring in a type reference. -/
def RType.idxs : RType → List Nat
  | .base t => [t]
  | .app t args => t :: args

/-- Every table index occurring anywhere in a signature entry. -/
def FEntry.typeIdxs (e : FEntry) : List Nat := (e.allTypes.map RType.idxs).flatten

/-- The empty string (used as a list-access default). -/
def emptyStr : String := ""

/-- The positions `j` of the index at which an item named `name` with
parent-type index `parent` is recorded (the `n` and `i` lists read in
parallel). -/
def entriesNamed (name : String) (parent : Nat) : List Nat :=
  (List.range hebrides_n.length).filter fun j =>
    hebrides_n.getD j emptyStr == name && hebrides_i.getD j 0 == parent

/-- The signature entry recorded at position `j` of the `f` list. -/
def sigOf (j : Nat) : FEntry := hebrides_f.getD j .noSig

/-- The 1-based `p`-table index of the `Real` type. -/
def pReal : Nat := 1

/-- The 1-based `p`-table index of the `Complex` type. -/
def pComplex : Nat := 2

/-- The 1-based `p`-table index of the `Angle` type. -/
def pAngle : Nat := 3

/-- The 1-based `p`-table index of the `DomainError` type. -/
def pDomainError : Nat := 4

/-- The 1-based `p`-table index of the `Result` enum. -/
def pResult : Nat := 5

/-- The 1-based `p`-table index of the `ConversionError` type. -/
def pConversionError : Nat := 6

/-- The 1-based `p`-table index of the `Ordering` enum. -/
def pOrdering : Nat := 7

/-- The 1-based `p`-table index of the `bool` primitive. -/
def pBool : Nat := 8

/-- The 1-based `p`-table index of the `i64` primitive. -/
def pI64 : Nat := 12

/-- The 1-based `p`-table index of the `f64` primitive. -/
def pF64 : Nat := 18

/-- The 1-based `p`-table index of the `Option` enum. -/
def pOption : Nat := 21

/-- The crate key of the index. -/
def strHebrides : String := "hebrides"

def nmArcsin : String := "arcsin"

def nmArccos : String := "arccos"

def nmArctan : String := "arctan"

def nmArcsinh : String := "arcsinh"

def nmArccosh : String := "arccosh"

def nmArctanh : String := "arctanh"

def nmLn : String := "ln"

def nmLog : String := "log"

def nmLogf : String := "logf"

def nmLogi : String := "logi"

def nmCmp : String := "cmp"

def nmPartialCmp : String := "partial_cmp"

def nmAzimuthal : String := "azimuthal"

def nmToComplex : String := "to_complex"

def nmNew : String := "new"

def nmEq : String := "eq"

def nmFromDegrees : String := "from_degrees"

def nmFromRadians : String := "from_radians"

def nmToDegrees : String := "to_degrees"

def nmToRadians : String := "to_radians"

def nmAdd : String := "add"

def nmSub : String := "sub"

def nmMul : String := "mul"

def nmDiv : String := "div"

def nmPositive : String := "positive"

def nmNegative : String := "negative"

def nmFloor : String := "floor"

def nmCeil : String := "ceil"

def nmSin : String := "sin"

def nmCos : String := "cos"

def nmTan : String := "tan"

def nmSinh : String := "sinh"

def nmCosh : String := "cosh"

def nmTanh : String := "tanh"

def nmExp : String := "exp"

def nmValue : String := "value"

def nmPow : String := "pow"

def nmPowi : String := "powi"

def nmTryFrom : String := "try_from"

/-- Sanity lemma: the index constants above name exactly the entries of the
`p` type table they claim to (entries of `p` are read 1-based). -/
theorem p_table_consistent :
    hebrides_p.getD (pReal - 1) (0, emptyStr) = (3, "Real")
    ∧ hebrides_p.getD (pComplex - 1) (0, emptyStr) = (3, "Complex")
    ∧ hebrides_p.getD (pAngle - 1) (0, emptyStr) = (3, "Angle")
    ∧ hebrides_p.getD (pDomainError - 1) (0, emptyStr) = (3, "DomainError")
    ∧ hebrides_p.getD (pResult - 1) (0, emptyStr) = (4, "Result")
    ∧ hebrides_p.getD (pConversionError - 1) (0, emptyStr) = (3, "ConversionError")
    ∧ hebrides_p.getD (pOrdering - 1) (0, emptyStr) = (4, "Ordering")
    ∧ hebrides_p.getD (pBool - 1) (0, emptyStr) = (15, "bool")
    ∧ hebrides_p.getD (pI64 - 1) (0, emptyStr) = (15, "i64")
    ∧ hebrides_p.getD (pF64 - 1) (0, emptyStr) = (15, "f64")
    ∧ hebrides_p.getD (pOption - 1) (0, emptyStr) = (4, "Option") := by
  decide

/-- C1, counterexample: the claim that every inverse trigonometric operation
recorded on `Real` (arcsin, arccos, arctan, arcsinh, arccosh, arctanh) has a
signature returning `Result` with error `DomainError` is false: the `arctan`
entry on `Real` (and likewise `arcsinh`) is recorded with the total signature
`Real -> Angle`. -/
theorem c1_inv_trig_counterexample :
    ¬ (∀ name ∈ [nmArcsin, nmArccos, nmArctan, nmArcsinh, nmArccosh, nmArctanh],
        ∀ j ∈ entriesNamed name pReal,
          (sigOf j).returnsResultErr pDomainError = true) := by
  decide

/-- C1, amended: among the inverse trigonometric operations recorded on `Real`,
arcsin, arccos, arccosh and arctanh are fallible with signature
`Real -> Result<Angle, DomainError>`, while arctan and arcsinh are total with
signature `Real -> Angle`; each of the six is recorded exactly once on
`Real`. -/
theorem c1_inv_trig_signatures :
    (∀ name ∈ [nmArcsin, nmArccos, nmArccosh, nmArctanh],
      entriesNamed name pReal ≠ [] ∧
      ∀ j ∈ entriesNamed name pReal,
        sigOf j = FEntry.fn (ArgSide.single (RType.base pReal))
          (ArgSide.list [RType.app pResult [pAngle, pDomainError]]))
    ∧ (∀ name ∈ [nmArctan, nmArcsinh],
      entriesNamed name pReal ≠ [] ∧
      ∀ j ∈ entriesNamed name pReal,
        sigOf j = FEntry.fn (ArgSide.single (RType.base pReal))
          (ArgSide.single (RType.base pAngle))) := by
  decide

/-- C1, witness: the amended theorem instantiated at `arcsin` (index 18) and at
`arctan` (index 22). -/
theorem c1_inv_trig_signatures_witness :
    (sigOf 18 = FEntry.fn (ArgSide.single (RType.base pReal))
      (ArgSide.list [RType.app pResult [pAngle, pDomainError]]))
    ∧ (sigOf 22 = FEntry.fn (ArgSide.single (RType.base pReal))
      (ArgSide.single (RType.base pAngle))) :=
  ⟨(c1_inv_trig_signatures.1 nmArcsin (by decide)).2 18 (by decide),
   (c1_inv_trig_signatures.2 nmArctan (by decide)).2 22 (by decide)⟩

/-- C2: each of the logarithm operations recorded on `Real` (ln, log, logf,
logi) is recorded at least once, and every such entry has a signature whose
output is `Result` with error component `DomainError`. -/
theorem c2_logarithms_fallible :
    ∀ name ∈ [nmLn, nmLog, nmLogf, nmLogi],
      entriesNamed name pReal ≠ [] ∧
      ∀ j ∈ entriesNamed name pReal,
        (sigOf j).returnsResultErr pDomainError = true := by
  decide

/-- C2, witness: the theorem instantiated at `ln` (index 92). -/
theorem c2_logarithms_fallible_witness :
    (sigOf 92).returnsResultErr pDomainError = true :=
  (c2_logarithms_fallible nmLn (by decide)).2 92 (by decide)

/-- C3, counterexample: the claim that `Real`'s comparison is exposed only
partially (partial_cmp returning `Option<Ordering>`, and no entry with parent
`Real` returning `Ordering` directly) is false: the `cmp` entry at index 46 has
parent `Real` and signature `(Real, Real) -> Ordering`. -/
theorem c3_cmp_counterexample :
    ¬ ((∀ j ∈ entriesNamed nmPartialCmp pReal,
          (sigOf j).outputTypes = [RType.app pOption [pOrdering]])
        ∧ (∀ j ∈ List.range hebrides_n.length,
          hebrides_i.getD j 0 = pReal →
            (sigOf j).outputTypes ≠ [RType.base pOrdering])) := by
  decide

/-- C3, amended: `Real`'s `partial_cmp` is recorded (once, at index 105) with
signature `(Real, Real) -> Option<Ordering>`, but in addition a total
comparison `cmp` is recorded for `Real` (once, at index 46) with signature
`(Real, Real) -> Ordering`. -/
theorem c3_real_comparisons :
    entriesNamed nmPartialCmp pReal = [105]
    ∧ sigOf 105 = FEntry.fn (ArgSide.list [RType.base pReal, RType.base pReal])
        (ArgSide.list [RType.app pOption [pOrdering]])
    ∧ entriesNamed nmCmp pReal = [46]
    ∧ sigOf 46 = FEntry.fn (ArgSide.list [RType.base pReal, RType.base pReal])
        (ArgSide.single (RType.base pOrdering)) := by
  decide

/-- C4, counterexample: the claim that the index records conversions between
`Angle` and `Complex` in both directions is false in the Angle-to-Complex
direction: while an operation with parent `Complex` returns an `Angle`
(azimuthal), no entry with parent `Angle` has an output mentioning `Complex`. -/
theorem c4_angle_complex_counterexample :
    ¬ ((∃ j ∈ List.range hebrides_n.length,
          hebrides_i.getD j 0 = pComplex
          ∧ (sigOf j).outputTypes.any (RType.mentions pAngle) = true)
        ∧ (∃ j ∈ List.range hebrides_n.length,
          hebrides_i.getD j 0 = pAngle
          ∧ (sigOf j).outputTypes.any (RType.mentions pComplex) = true)) := by
  decide

/-- C4, amended: the index records a Complex-to-Angle conversion (`azimuthal`
on `Complex`, index 26, `Complex -> Angle`) and a Complex-producing conversion
`to_complex`, but the latter is recorded on `Real` (index 124,
`Real -> Complex`); no entry with parent `Angle` has an output mentioning
`Complex`. -/
theorem c4_angle_complex_conversions :
    entriesNamed nmAzimuthal pComplex = [26]
    ∧ sigOf 26 = FEntry.fn (ArgSide.single (RType.base pComplex))
        (ArgSide.single (RType.base pAngle))
    ∧ entriesNamed nmToComplex pReal = [124]
    ∧ sigOf 124 = FEntry.fn (ArgSide.single (RType.base pReal))
        (ArgSide.single (RType.base pComplex))
    ∧ (∀ j ∈ List.range hebrides_n.length,
        hebrides_i.getD j 0 = pAngle →
          (sigOf j).outputTypes.any (RType.mentions pComplex) = false) := by
  decide

/-- C4, witness: the final conjunct of the amended theorem instantiated at
index 125 (`to_degrees`, parent `Angle`). -/
theorem c4_angle_complex_conversions_witness :
    (sigOf 125).outputTypes.any (RType.mentions pComplex) = false :=
  c4_angle_complex_conversions.2.2.2.2 125 (by decide) (by decide)

/-- C5: the index records `new` with parent `Complex` exactly once (index 103)
with signature `(f64, f64) -> Complex`, and `eq` with parent `Complex` exactly
once (index 54) with signature `(Complex, Complex) -> bool`. -/
theorem c5_complex_new_eq :
    entriesNamed nmNew pComplex = [103]
    ∧ sigOf 103 = FEntry.fn (ArgSide.list [RType.base pF64, RType.base pF64])
        (ArgSide.single (RType.base pComplex))
    ∧ entriesNamed nmEq pComplex = [54]
    ∧ sigOf 54 = FEntry.fn (ArgSide.list [RType.base pComplex, RType.base pComplex])
        (ArgSide.single (RType.base pBool)) := by
  decide

/-- C6: the index records, all with parent `Angle`, `from_degrees` (index 81)
and `from_radians` (index 82) with signature `f64 -> Angle`, and `to_degrees`
(index 125) and `to_radians` (index 130) with signature `Angle -> f64`. -/
theorem c6_angle_conversion_api :
    entriesNamed nmFromDegrees pAngle = [81]
    ∧ sigOf 81 = FEntry.fn (ArgSide.single (RType.base pF64))
        (ArgSide.single (RType.base pAngle))
    ∧ entriesNamed nmFromRadians pAngle = [82]
    ∧ sigOf 82 = FEntry.fn (ArgSide.single (RType.base pF64))
        (ArgSide.single (RType.base pAngle))
    ∧ entriesNamed nmToDegrees pAngle = [125]
    ∧ sigOf 125 = FEntry.fn (ArgSide.single (RType.base pAngle))
        (ArgSide.single (RType.base pF64))
    ∧ entriesNamed nmToRadians pAngle = [130]
    ∧ sigOf 130 = FEntry.fn (ArgSide.single (RType.base pAngle))
        (ArgSide.single (RType.base pF64)) := by
  decide

/-- C7: with parent `Real`, each of add/sub/mul/div is recorded with signature
`(Real, Real) -> Real`, positive and negative with `Real -> bool`, floor, ceil
and the transcendental functions sin/cos/tan/sinh/cosh/tanh/exp with
`Real -> Real`, and `value` (index 151) with `Real -> f64`; each of these names
is recorded at least once on `Real`. -/
theorem c7_real_operations :
    (∀ name ∈ [nmAdd, nmSub, nmMul, nmDiv],
      entriesNamed name pReal ≠ [] ∧
      ∀ j ∈ entriesNamed name pReal,
        sigOf j = FEntry.fn (ArgSide.list [RType.base pReal, RType.base pReal])
          (ArgSide.single (RType.base pReal)))
    ∧ (∀ name ∈ [nmPositive, nmNegative],
      entriesNamed name pReal ≠ [] ∧
      ∀ j ∈ entriesNamed name pReal,
        sigOf j = FEntry.fn (ArgSide.single (RType.base pReal))
          (ArgSide.single (RType.base pBool)))
    ∧ (∀ name ∈ [nmFloor, nmCeil, nmSin, nmCos, nmTan, nmSinh, nmCosh, nmTanh, nmExp],
      entriesNamed name pReal ≠ [] ∧
      ∀ j ∈ entriesNamed name pReal,
        sigOf j = FEntry.fn (ArgSide.single (RType.base pReal))
          (ArgSide.single (RType.base pReal)))
    ∧ entriesNamed nmValue pReal = [151]
    ∧ sigOf 151 = FEntry.fn (ArgSide.single (RType.base pReal))
        (ArgSide.single (RType.base pF64)) := by
  decide

/-- C7, witness: the theorem instantiated at `add` (index 12), `positive`
(index 106) and `sin` (index 110). -/
theorem c7_real_operations_witness :
    (sigOf 12 = FEntry.fn (ArgSide.list [RType.base pReal, RType.base pReal])
      (ArgSide.single (RType.base pReal)))
    ∧ (sigOf 106 = FEntry.fn (ArgSide.single (RType.base pReal))
      (ArgSide.single (RType.base pBool)))
    ∧ (sigOf 110 = FEntry.fn (ArgSide.single (RType.base pReal))
      (ArgSide.single (RType.base pReal))) :=
  ⟨(c7_real_operations.1 nmAdd (by decide)).2 12 (by decide),
   (c7_real_operations.2.1 nmPositive (by decide)).2 106 (by decide),
   (c7_real_operations.2.2.1 nmSin (by decide)).2 110 (by decide)⟩

/-- C8: the parsed `searchIndex` value has exactly one crate key, `hebrides`,
and the entry stored under it carries the parallel lists `t`, `n`, `d`, `i`,
`f` and the type table `p` embedded above. -/
theorem c8_search_index_shape :
    searchIndex.map Prod.fst = [strHebrides]
    ∧ searchIndex.lookup strHebrides = some hebridesCrate
    ∧ hebridesCrate.t = hebrides_t
    ∧ hebridesCrate.n = hebrides_n
    ∧ hebridesCrate.d = hebrides_d
    ∧ hebridesCrate.i = hebrides_i
    ∧ hebridesCrate.f = hebrides_f
    ∧ hebridesCrate.p = hebrides_p := by
  refine ⟨rfl, ?_, rfl, rfl, rfl, rfl, rfl, rfl⟩
  rfl

/-- C9: the lists `t`, `n`, `d`, `i`, `f` of the `hebrides` entry all have
length 152, the type table `p` has length 23, every parent index in `i` is 0 or
a valid 1-based index into `p`, and every type index occurring anywhere in a
signature entry of `f` is a valid 1-based index into `p`. -/
theorem c9_index_well_formed :
    hebrides_t.length = 152
    ∧ hebrides_n.length = 152
    ∧ hebrides_d.length = 152
    ∧ hebrides_i.length = 152
    ∧ hebrides_f.length = 152
    ∧ hebrides_p.length = 23
    ∧ (∀ x ∈ hebrides_i, x = 0 ∨ (1 ≤ x ∧ x ≤ hebrides_p.length))
    ∧ (∀ e ∈ hebrides_f, ∀ k ∈ e.typeIdxs, 1 ≤ k ∧ k ≤ hebrides_p.length) := by
  decide

/-- C9, witness: the membership conjuncts instantiated at parent index 1 (an
element of `i`) and at type index 1 inside the signature entry of `abs` (an
element of `f`). -/
theorem c9_index_well_formed_witness :
    (1 = 0 ∨ (1 ≤ 1 ∧ 1 ≤ hebrides_p.length))
    ∧ (1 ≤ 1 ∧ 1 ≤ hebrides_p.length) :=
  ⟨c9_index_well_formed.2.2.2.2.2.2.1 1 (by decide),
   c9_index_well_formed.2.2.2.2.2.2.2
     (FEntry.fn (ArgSide.single (RType.base 1)) (ArgSide.single (RType.base 1)))
     (by decide) 1 (by decide)⟩

/-- C10: exactly one signature entry in `f` mentions `ConversionError` as the
error component of a `Result`, namely index 138, whose item is `try_from` with
parent `Real` and signature `Complex -> Result<Real, ConversionError>`; and
`div`, `pow` and `powi` on `Real` are recorded as total, with signatures
`(Real, Real) -> Real`, `(Real, Real) -> Real` and `(Real, i64) -> Real`
carrying no `Result` error channel at all. -/
theorem c10_conversion_error_unique :
    ((List.range hebrides_f.length).filter
        fun j => (sigOf j).resultErrs.contains pConversionError) = [138]
    ∧ hebrides_n.getD 138 emptyStr = nmTryFrom
    ∧ hebrides_i.getD 138 0 = pReal
    ∧ sigOf 138 = FEntry.fn (ArgSide.single (RType.base pComplex))
        (ArgSide.list [RType.app pResult [pReal, pConversionError]])
    ∧ entriesNamed nmDiv pReal = [51]
    ∧ sigOf 51 = FEntry.fn (ArgSide.list [RType.base pReal, RType.base pReal])
        (ArgSide.single (RType.base pReal))
    ∧ (sigOf 51).resultErrs = []
    ∧ entriesNamed nmPow pReal = [107]
    ∧ sigOf 107 = FEntry.fn (ArgSide.list [RType.base pReal, RType.base pReal])
        (ArgSide.single (RType.base pReal))
    ∧ (sigOf 107).resultErrs = []
    ∧ entriesNamed nmPowi pReal = [109]
    ∧ sigOf 109 = FEntry.fn (ArgSide.list [RType.base pReal, RType.base pI64])
        (ArgSide.single (RType.base pReal))
    ∧ (sigOf 109).resultErrs = [] := by
  decide
